import Mathlib

/-!
# InterviewBuddy — response-delivery core, shallow embedding

Shallow embedding of the response pipeline of the InterviewBuddy repository:

* `retryWithBackoff`, `RETRY_CONFIG` and the transient-error classifier
  (server/services/aiService.js, lines 12–61);
* `generateInterviewResponse`, the orchestrator (same file, lines 169–281);
* `generateGeminiResponse`, the Gemini provider adapter
  (server/services/geminiService.js, lines 57–172).

Modelling conventions:

* Asynchronous provider calls are modelled as attempt-indexed outcome
  functions `Nat → Except String α`: `Except.error msg` stands for a rejected
  promise whose `error.message` is `msg`.
* A `sleep` is not performed; instead the list of delays that would be slept
  is collected in the returned trace, in order.
* Library collaborators that are outside the repository (the Groq SDK, the
  Gemini SDK including `JSON.parse` of the backend text, the cache store and
  the rate limiter, whose results the pipeline merely consumes) appear as
  environment data; the repository's own control flow is translated line by
  line.
* JavaScript's `a || b` on strings treats the empty string as falsy; the
  helpers `jsOrS`/`jsOrO` reproduce this.
-/

namespace InterviewBuddy

/-- `l` contains `pat` as a contiguous sublist (model of JS
`String.prototype.includes` on the underlying character lists). -/
def listContainsSub (l pat : List Char) : Bool :=
  match l with
  | [] => pat.isEmpty
  | _ :: t => pat.isPrefixOf l || listContainsSub t pat

/-- `s.includes(pat)` of JavaScript. -/
def strIncludes (s pat : String) : Bool :=
  listContainsSub s.toList pat.toList

/-- JS `s || d` for a string `s`: the empty string is falsy. -/
def jsOrS (s d : String) : String :=
  if s = "" then d else s

/-- JS `v || d` where `v` is a possibly-absent (null/undefined) string. -/
def jsOrO (v : Option String) (d : String) : String :=
  match v with
  | some s => jsOrS s d
  | none => d

/-- JS `s.substring(0, n)`. -/
def jsSubstring (s : String) (n : Nat) : String :=
  (s.toList.take n).asString

/-- Retry configuration (aiService.js lines 12–17). -/
structure RetryConfig where
  maxRetries : Nat
  initialDelay : Nat
  maxDelay : Nat
  backoffMultiplier : Nat
deriving DecidableEq, Repr

/-- `RETRY_CONFIG = { maxRetries: 3, initialDelay: 1000, maxDelay: 10000,
backoffMultiplier: 2 }`. -/
def RETRY_CONFIG : RetryConfig :=
  { maxRetries := 3, initialDelay := 1000, maxDelay := 10000, backoffMultiplier := 2 }

/-- The transient-error test of `retryWithBackoff` (aiService.js lines 42–48):
a substring match on the error message. -/
def isRetryableMsg (msg : String) : Bool :=
  strIncludes msg "timeout" ||
  strIncludes msg "ECONNRESET" ||
  strIncludes msg "ETIMEDOUT" ||
  strIncludes msg "429" ||
  strIncludes msg "503" ||
  strIncludes msg "500"

/-- Observable trace of one `retryWithBackoff` run: the final settled result,
how many times the wrapped function was invoked, and the delays slept between
successive attempts, in order. -/
structure RetryTrace (α : Type) where
  result : Except String α
  calls : Nat
  delays : List Nat
deriving Repr

/-- `retryWithBackoff(fn, retries, delay)` (aiService.js lines 32–61).
`fn i` is the outcome of the `i`-th invocation of the wrapped function
(`i = 0` for the initial attempt).  On failure, if no retries remain the
error is rethrown; otherwise, if the message is transient, the current delay
is slept and the call recurses with one fewer retry and the doubled (capped)
delay; a non-transient message is rethrown at once. -/
def retryWithBackoff {α : Type} (fn : Nat → Except String α)
    (retries delay attempt : Nat) : RetryTrace α :=
  match fn attempt with
  | Except.ok v => { result := Except.ok v, calls := 1, delays := [] }
  | Except.error e =>
    match retries with
    | 0 => { result := Except.error e, calls := 1, delays := [] }
    | r + 1 =>
      if isRetryableMsg e then
        let rest := retryWithBackoff fn r
          (min (delay * RETRY_CONFIG.backoffMultiplier) RETRY_CONFIG.maxDelay) (attempt + 1)
        { result := rest.result, calls := rest.calls + 1, delays := delay :: rest.delays }
      else
        { result := Except.error e, calls := 1, delays := [] }

/-- The canonical response object shape produced by the adapters and by the
pipeline's fallback (CanonicalResponse of the spec).  `error` is `none` when
the JS object carries no `error` field. -/
structure CanonicalResponse where
  answer : String
  experience_mentioned : List String
  key_technologies : List String
  follow_up_topics : List String
  score : Nat
  strengths : List String
  weaknesses : List String
  suggestion : String
  next_question : String
  error : Option String
  provider : String
  model : String
deriving DecidableEq, Repr

/-- The structured fields of the JSON value that `JSON.parse` yields from the
Gemini backend text (geminiService.js lines 121–135).  A field is `none` when
it is absent / null / not of the expected shape (for the array fields this is
the `Array.isArray` failure case; for `answer`, absence — the falsy empty
string is handled by `jsOrS` at use sites). -/
structure ParsedJson where
  answer : Option String
  experience_mentioned : Option (List String)
  key_technologies : Option (List String)
  follow_up_topics : Option (List String)
deriving DecidableEq, Repr

/-- Outcome of the Gemini backend call (`generateContent` … `response.text()`),
an external library collaborator: either the awaited promise rejects with an
error whose message is `msg`, or it resolves with the text `text`, and
`parsed` is the result of `JSON.parse` on the fence-stripped text (`none`
when the parse throws). -/
inductive GeminiBackend where
  | throws (msg : String)
  | replies (text : String) (parsed : Option ParsedJson)
deriving DecidableEq, Repr

/-- Environment of one `generateGeminiResponse` call: whether the module-level
`genAI` client was initialized, and the backend call's outcome. -/
structure GeminiEnv where
  initialized : Bool
  backend : GeminiBackend
deriving DecidableEq, Repr

/-- The terminal fallback of `generateGeminiResponse`'s catch block
(geminiService.js lines 157–170). -/
def geminiCatchFallback (msg model : String) : CanonicalResponse :=
  { answer := "I have extensive experience in this area. Let me share a specific example from my previous role..."
    experience_mentioned := []
    key_technologies := []
    follow_up_topics := []
    score := 0
    strengths := []
    weaknesses := ["Error processing request with Gemini"]
    suggestion := "I have extensive experience in this area. Let me share a specific example..."
    next_question := "Could you tell me more about your experience?"
    error := some msg
    provider := "gemini"
    model := model }

/-- `generateGeminiResponse` (geminiService.js lines 57–172).  If the client
is uninitialized the function throws inside its own try, landing in the catch;
a backend rejection lands in the same catch; otherwise the reply text is
parsed, with a degradation object on parse failure (lines 129–134), and the
validated response is assembled (lines 137–150).  The function always resolves
to a `CanonicalResponse`, never rejects: this is its catch-all fallback made
total. -/
def generateGeminiResponse (env : GeminiEnv) (model : String) : CanonicalResponse :=
  if env.initialized = false then
    geminiCatchFallback "Gemini client not initialized" model
  else
    match env.backend with
    | GeminiBackend.throws msg => geminiCatchFallback msg model
    | GeminiBackend.replies text parsed =>
      let parsedResponse : ParsedJson :=
        match parsed with
        | some p => p
        | none =>
          { answer := some (jsOrS (jsSubstring text 500)
              "Based on my extensive experience in this field, I can provide detailed insights...")
            experience_mentioned := some []
            key_technologies := some []
            follow_up_topics := some [] }
      { answer := jsOrO parsedResponse.answer "I have several years of hands-on experience with this..."
        experience_mentioned := parsedResponse.experience_mentioned.getD []
        key_technologies := parsedResponse.key_technologies.getD []
        follow_up_topics := parsedResponse.follow_up_topics.getD []
        score := 85
        strengths :=
          match parsedResponse.experience_mentioned with
          | some l => l
          | none => ["Demonstrated experience"]
        weaknesses := []
        suggestion := (parsedResponse.answer).getD ""
        next_question :=
          match parsedResponse.follow_up_topics with
          | some (h :: _) => jsOrS h "Tell me more about your experience."
          | _ => "Tell me more about your experience."
        error := none
        provider := "gemini"
        model := model }

/-- Result of `checkRateLimit(provider)` as consumed by the pipeline
(aiService.js lines 188–199): `allowed`, and on rejection a `reason` and
`retryAfter` seconds. -/
structure RateLimitResult where
  allowed : Bool
  reason : String
  retryAfter : Nat
deriving DecidableEq, Repr

/-- Environment of one `generateInterviewResponse` call: the results the
collaborating services would return, and the per-attempt behaviour of the two
provider backends.  `groqCall i` is the outcome of the `i`-th invocation of
`generateGroqResponse` (a rejection carries the error message); `geminiEnv i`
is the Gemini environment seen on the `i`-th attempt. -/
structure PipelineEnv where
  rateCheck : RateLimitResult
  cacheable : Bool
  cached : Option CanonicalResponse
  groqCall : Nat → Except String CanonicalResponse
  geminiEnv : Nat → GeminiEnv
  groqModelEnv : Option String
  geminiModelEnv : Option String

/-- Observable outcome of one `generateInterviewResponse` call: the returned
response, how many times the retried closure ran, how many of those runs
reached a provider adapter, whether `getCachedAIResponse` was consulted, the
value passed to `cacheAIResponse` (`none` when no write happened), and the
delays slept by the retry policy. -/
structure PipelineResult where
  response : CanonicalResponse
  fnCalls : Nat
  adapterCalls : Nat
  cacheLookedUp : Bool
  cacheWrite : Option CanonicalResponse
  delays : List Nat
deriving Repr

/-- The pipeline's graceful fallback response (aiService.js lines 266–279),
built in the outer catch from the caught error's message. -/
def fallbackResponse (msg provider : String) (model : Option String) : CanonicalResponse :=
  { answer := "I apologize, but I'm having trouble generating a response right now. " ++ msg ++ ". Please try again in a moment."
    experience_mentioned := []
    key_technologies := []
    follow_up_topics := []
    score := 0
    strengths := []
    weaknesses := ["Error with " ++ provider ++ ": " ++ msg]
    suggestion := "Please try your question again or switch to a different AI provider."
    next_question := "Could you rephrase your question?"
    error := some msg
    provider := provider
    model := jsOrO model "unknown" }

/-- The closure handed to `retryWithBackoff` in step 3 of the pipeline
(aiService.js lines 212–239): dispatch on the provider string; the groq
result is stamped with `provider`/`model`, the gemini adapter is called with
the resolved model id, and any other provider throws. -/
def pipelineFn (env : PipelineEnv) (provider : String) (model : Option String)
    (attempt : Nat) : Except String CanonicalResponse :=
  if provider = "groq" then
    match env.groqCall attempt with
    | Except.error e => Except.error e
    | Except.ok result =>
      Except.ok { result with
        provider := "groq"
        model := jsOrO model (jsOrO env.groqModelEnv "llama-3.3-70b-versatile") }
  else if provider = "gemini" then
    Except.ok (generateGeminiResponse (env.geminiEnv attempt)
      (jsOrO model (jsOrO env.geminiModelEnv "gemini-2.0-flash-exp")))
  else
    Except.error ("Unknown provider: " ++ provider)

/-- `generateInterviewResponse` (aiService.js lines 169–281).
Step 1: rate-limit check — on rejection an error embedding the reason and
retry-after seconds is thrown, caught by the outer catch, and returned as the
fallback response.  Step 2: cache lookup, only for cacheable questions; a hit
returns at once.  Step 3: the dispatch closure under `retryWithBackoff` with
the default retries/delay.  Step 4: on success, cache write for cacheable
questions; an exhausted or non-retryable error reaches the outer catch and
becomes the fallback response. -/
def generateInterviewResponse (env : PipelineEnv) (provider : String)
    (model : Option String) : PipelineResult :=
  if env.rateCheck.allowed = false then
    { response := fallbackResponse
        (env.rateCheck.reason ++ ". Please wait " ++ toString env.rateCheck.retryAfter ++ " seconds and try again.")
        provider model
      fnCalls := 0, adapterCalls := 0, cacheLookedUp := false, cacheWrite := none, delays := [] }
  else
    match (if env.cacheable then env.cached else none) with
    | some cachedResponse =>
      { response := cachedResponse, fnCalls := 0, adapterCalls := 0,
        cacheLookedUp := true, cacheWrite := none, delays := [] }
    | none =>
      let t := retryWithBackoff (pipelineFn env provider model)
        RETRY_CONFIG.maxRetries RETRY_CONFIG.initialDelay 0
      match t.result with
      | Except.ok response =>
        { response := response
          fnCalls := t.calls
          adapterCalls := if provider = "groq" || provider = "gemini" then t.calls else 0
          cacheLookedUp := env.cacheable
          cacheWrite := if env.cacheable then some response else none
          delays := t.delays }
      | Except.error e =>
        { response := fallbackResponse e provider model
          fnCalls := t.calls
          adapterCalls := if provider = "groq" || provider = "gemini" then t.calls else 0
          cacheLookedUp := env.cacheable
          cacheWrite := none
          delays := t.delays }

/-- The sequence of `delay` values that `retryWithBackoff` passes down through
`r` consecutive retries starting from delay `d`: `d`, then `min (d*2) 10000`,
and so on (the delay-update expression of aiService.js line 55). -/
def delaySchedule : Nat → Nat → List Nat
  | 0, _ => []
  | r + 1, d => d :: delaySchedule r (min (d * RETRY_CONFIG.backoffMultiplier) RETRY_CONFIG.maxDelay)

/-- Concrete environment: rate limit admits, question not cacheable, groq
backend rejects with a transient message on every attempt, gemini backend
rejects with message "boom". -/
def envNoCache : PipelineEnv :=
  { rateCheck := { allowed := true, reason := "", retryAfter := 0 }
    cacheable := false
    cached := none
    groqCall := fun _ => Except.error "timeout"
    geminiEnv := fun _ => { initialized := true, backend := GeminiBackend.throws "boom" }
    groqModelEnv := none
    geminiModelEnv := none }

/-- Concrete environment: rate limit rejects with reason
"Rate limit exceeded" and retry-after 42 seconds. -/
def envRateLimited : PipelineEnv :=
  { envNoCache with
    rateCheck := { allowed := false, reason := "Rate limit exceeded", retryAfter := 42 } }

/-- A concrete cached canonical response. -/
def cachedResp : CanonicalResponse :=
  { answer := "Cached answer"
    experience_mentioned := []
    key_technologies := []
    follow_up_topics := []
    score := 85
    strengths := []
    weaknesses := []
    suggestion := ""
    next_question := ""
    error := none
    provider := "groq"
    model := "test-model" }

/-- Concrete environment: cacheable question whose lookup hits `cachedResp`. -/
def envCacheHit : PipelineEnv :=
  { envNoCache with cacheable := true, cached := some cachedResp }

/-- Concrete environment: cacheable question whose lookup misses. -/
def envCacheMiss : PipelineEnv :=
  { envNoCache with cacheable := true }

/-- Concrete environment: the gemini backend replies with text that is not
valid JSON. -/
def envMalformed : PipelineEnv :=
  { envNoCache with
    geminiEnv := fun _ =>
      { initialized := true, backend := GeminiBackend.replies "oops not json" none } }

/-! ## Helper lemmas -/

theorem jsOrS_ne_empty (s d : String) (hd : d ≠ "") : jsOrS s d ≠ "" := by
  unfold jsOrS
  by_cases h : s = ""
  · simpa [h] using hd
  · simp [h]

theorem fallbackResponse_answer_ne_empty (msg p : String) (m : Option String) :
    (fallbackResponse msg p m).answer ≠ "" := by
  intro h
  have h2 := congrArg String.length h
  simp [fallbackResponse, String.length_append] at h2
  exact absurd h2.1.1 (by decide)

theorem asString_empty_iff (l : List Char) : l.asString = "" ↔ l = [] := by
  constructor
  · intro h
    have h2 : (List.asString l).data = ("" : String).data := by rw [h]
    simpa [List.asString] using h2
  · intro h
    simp [h, List.asString]

theorem jsSubstring_empty_iff (s : String) : jsSubstring s 500 = "" ↔ s = "" := by
  unfold jsSubstring
  rw [asString_empty_iff, List.take_eq_nil_iff]
  constructor
  · intro h
    rcases h with h | h
    · exact absurd h (by decide)
    · cases s with
      | mk data =>
        simp [String.toList] at h
        subst h
        rfl
  · intro h
    subst h
    right
    rfl

theorem retry_ok {α : Type} (fn : Nat → Except String α) (r d a : Nat) (v : α)
    (h : fn a = Except.ok v) :
    retryWithBackoff fn r d a = ⟨Except.ok v, 1, []⟩ := by
  unfold retryWithBackoff
  rw [h]

theorem retry_zero_err {α : Type} (fn : Nat → Except String α) (d a : Nat) (e : String)
    (h : fn a = Except.error e) :
    retryWithBackoff fn 0 d a = ⟨Except.error e, 1, []⟩ := by
  unfold retryWithBackoff
  rw [h]

theorem retry_err_final {α : Type} (fn : Nat → Except String α) (r d a : Nat) (e : String)
    (h : fn a = Except.error e) (hr : isRetryableMsg e = false) :
    retryWithBackoff fn r d a = ⟨Except.error e, 1, []⟩ := by
  unfold retryWithBackoff
  rw [h]
  cases r with
  | zero => rfl
  | succ r' => simp [hr]

theorem retry_step {α : Type} (fn : Nat → Except String α) (r d a : Nat) (e : String)
    (h : fn a = Except.error e) (hr : isRetryableMsg e = true) :
    retryWithBackoff fn (r + 1) d a =
      { result := (retryWithBackoff fn r (min (d * RETRY_CONFIG.backoffMultiplier) RETRY_CONFIG.maxDelay) (a + 1)).result
        calls := (retryWithBackoff fn r (min (d * RETRY_CONFIG.backoffMultiplier) RETRY_CONFIG.maxDelay) (a + 1)).calls + 1
        delays := d :: (retryWithBackoff fn r (min (d * RETRY_CONFIG.backoffMultiplier) RETRY_CONFIG.maxDelay) (a + 1)).delays } := by
  conv_lhs => rw [retryWithBackoff]
  rw [h]
  simp [hr]

theorem retry_calls_pos {α : Type} (fn : Nat → Except String α) (r d a : Nat) :
    1 ≤ (retryWithBackoff fn r d a).calls := by
  cases h : fn a with
  | ok v => rw [retry_ok fn r d a v h]
  | error e =>
    cases r with
    | zero => rw [retry_zero_err fn d a e h]
    | succ r' =>
      by_cases hr : isRetryableMsg e
      · rw [retry_step fn r' d a e h hr]
        simp
      · rw [retry_err_final fn (r' + 1) d a e h (by simpa using hr)]

theorem retry_const_transient {α : Type} (fn : Nat → Except String α) (e : String)
    (hf : ∀ i, fn i = Except.error e) (hr : isRetryableMsg e = true) :
    ∀ r d a, retryWithBackoff fn r d a = ⟨Except.error e, r + 1, delaySchedule r d⟩ := by
  intro r
  induction r with
  | zero =>
    intro d a
    rw [retry_zero_err fn d a e (hf a)]
    rfl
  | succ r' ih =>
    intro d a
    rw [retry_step fn r' d a e (hf a) hr, ih]
    simp [delaySchedule]

theorem retry_transient {α : Type} (fn : Nat → Except String α)
    (hf : ∀ i, ∃ e, fn i = Except.error e ∧ isRetryableMsg e = true) :
    ∀ r d a, (retryWithBackoff fn r d a).calls = r + 1 ∧
      (retryWithBackoff fn r d a).delays = delaySchedule r d ∧
      ∃ e, (retryWithBackoff fn r d a).result = Except.error e := by
  intro r
  induction r with
  | zero =>
    intro d a
    obtain ⟨e, he, hr⟩ := hf a
    rw [retry_zero_err fn d a e he]
    exact ⟨rfl, rfl, e, rfl⟩
  | succ r' ih =>
    intro d a
    obtain ⟨e, he, hr⟩ := hf a
    rw [retry_step fn r' d a e he hr]
    obtain ⟨hc, hd, hres⟩ := ih (min (d * RETRY_CONFIG.backoffMultiplier) RETRY_CONFIG.maxDelay) (a + 1)
    exact ⟨by simp [hc], by simp [hd, delaySchedule], by simpa using hres⟩

theorem retry_const_error_result {α : Type} (fn : Nat → Except String α) (e : String)
    (hf : ∀ i, fn i = Except.error e) :
    ∀ r d a, (retryWithBackoff fn r d a).result = Except.error e := by
  intro r
  induction r with
  | zero =>
    intro d a
    rw [retry_zero_err fn d a e (hf a)]
  | succ r' ih =>
    intro d a
    by_cases hr : isRetryableMsg e
    · rw [retry_step fn r' d a e (hf a) hr]
      simpa using ih _ _
    · rw [retry_err_final fn (r' + 1) d a e (hf a) (by simpa using hr)]

theorem retry_error_result {α : Type} (fn : Nat → Except String α)
    (hf : ∀ i, ∃ e, fn i = Except.error e) :
    ∀ r d a, ∃ e, (retryWithBackoff fn r d a).result = Except.error e := by
  intro r
  induction r with
  | zero =>
    intro d a
    obtain ⟨e, he⟩ := hf a
    rw [retry_zero_err fn d a e he]
    exact ⟨e, rfl⟩
  | succ r' ih =>
    intro d a
    obtain ⟨e, he⟩ := hf a
    by_cases hr : isRetryableMsg e
    · rw [retry_step fn r' d a e he hr]
      simpa using ih _ _
    · rw [retry_err_final fn (r' + 1) d a e he (by simpa using hr)]
      exact ⟨e, rfl⟩

theorem retry_delays_within_sched {α : Type} (fn : Nat → Except String α) :
    ∀ r d a, (retryWithBackoff fn r d a).delays <+: delaySchedule r d := by
  intro r
  induction r with
  | zero =>
    intro d a
    cases h : fn a with
    | ok v => rw [retry_ok fn 0 d a v h]; exact List.nil_prefix
    | error e => rw [retry_zero_err fn d a e h]; exact List.nil_prefix
  | succ r' ih =>
    intro d a
    cases h : fn a with
    | ok v => rw [retry_ok fn (r' + 1) d a v h]; exact List.nil_prefix
    | error e =>
      by_cases hr : isRetryableMsg e
      · rw [retry_step fn r' d a e h hr]
        simp only [delaySchedule]
        exact List.cons_prefix_cons.mpr ⟨rfl, ih _ _⟩
      · rw [retry_err_final fn (r' + 1) d a e h (by simpa using hr)]
        exact List.nil_prefix

theorem pipelineFn_unknown (env : PipelineEnv) (p : String) (m : Option String) (i : Nat)
    (hg : p ≠ "groq") (hgm : p ≠ "gemini") :
    pipelineFn env p m i = Except.error ("Unknown provider: " ++ p) := by
  simp [pipelineFn, hg, hgm]

theorem pipelineFn_gemini (env : PipelineEnv) (m : Option String) (i : Nat) :
    pipelineFn env "gemini" m i =
      Except.ok (generateGeminiResponse (env.geminiEnv i)
        (jsOrO m (jsOrO env.geminiModelEnv "gemini-2.0-flash-exp"))) := by
  simp [pipelineFn]

theorem pipelineFn_groq_error (env : PipelineEnv) (m : Option String) (i : Nat) (e : String)
    (hq : env.groqCall i = Except.error e) :
    pipelineFn env "groq" m i = Except.error e := by
  simp [pipelineFn, hq]

theorem pipeline_rate_limited (env : PipelineEnv) (p : String) (m : Option String)
    (h : env.rateCheck.allowed = false) :
    generateInterviewResponse env p m =
      { response := fallbackResponse
          (env.rateCheck.reason ++ ". Please wait " ++ toString env.rateCheck.retryAfter ++ " seconds and try again.")
          p m
        fnCalls := 0, adapterCalls := 0, cacheLookedUp := false, cacheWrite := none, delays := [] } := by
  unfold generateInterviewResponse
  rw [h]
  simp

theorem pipeline_cache_hit (env : PipelineEnv) (p : String) (m : Option String)
    (c : CanonicalResponse)
    (hallow : env.rateCheck.allowed = true) (hc : env.cacheable = true) (hhit : env.cached = some c) :
    generateInterviewResponse env p m =
      { response := c, fnCalls := 0, adapterCalls := 0, cacheLookedUp := true,
        cacheWrite := none, delays := [] } := by
  unfold generateInterviewResponse
  rw [hallow, hc, hhit]
  simp

theorem pipeline_miss_trace (env : PipelineEnv) (p : String) (m : Option String)
    (hallow : env.rateCheck.allowed = true)
    (hmiss : env.cacheable = true → env.cached = none)
    (t : RetryTrace CanonicalResponse)
    (ht : retryWithBackoff (pipelineFn env p m) RETRY_CONFIG.maxRetries RETRY_CONFIG.initialDelay 0 = t) :
    generateInterviewResponse env p m =
      match t.result with
      | Except.ok response =>
        { response := response, fnCalls := t.calls,
          adapterCalls := if p = "groq" || p = "gemini" then t.calls else 0,
          cacheLookedUp := env.cacheable,
          cacheWrite := if env.cacheable then some response else none,
          delays := t.delays }
      | Except.error e =>
        { response := fallbackResponse e p m, fnCalls := t.calls,
          adapterCalls := if p = "groq" || p = "gemini" then t.calls else 0,
          cacheLookedUp := env.cacheable, cacheWrite := none, delays := t.delays } := by
  have hif : (if env.cacheable then env.cached else none) = none := by
    cases hc : env.cacheable
    · simp
    · simp [hmiss hc]
  unfold generateInterviewResponse
  rw [hallow, hif, ht]
  simp

theorem gemini_parse_fallback_eq (text mstr : String) :
    generateGeminiResponse ⟨true, GeminiBackend.replies text none⟩ mstr =
      { answer := jsOrS (jsOrS (jsSubstring text 500)
          "Based on my extensive experience in this field, I can provide detailed insights...")
          "I have several years of hands-on experience with this..."
        experience_mentioned := []
        key_technologies := []
        follow_up_topics := []
        score := 85
        strengths := []
        weaknesses := []
        suggestion := jsOrS (jsSubstring text 500)
          "Based on my extensive experience in this field, I can provide detailed insights..."
        next_question := "Tell me more about your experience."
        error := none
        provider := "gemini"
        model := mstr } := by
  rfl

/-! ## Claim theorems -/

/-- Claim C1: for every input combination — unknown provider, rate-limit
rejection, provider-call exception, malformed backend reply —
`generateInterviewResponse` resolves to a response whose `answer` is a
non-empty string, and the error paths additionally carry `error`, the echoed
`provider`, and `model` defaulting to "unknown" when unresolved.  The
function never raises past its boundary: in the embedding it is total,
returning a `PipelineResult` on every environment. -/
theorem claim_C1_never_throws (env : PipelineEnv) (p : String) (m : Option String) :
    (env.rateCheck.allowed = false →
      (generateInterviewResponse env p m).response.answer ≠ ""
      ∧ (generateInterviewResponse env p m).response.error.isSome = true
      ∧ (generateInterviewResponse env p m).response.provider = p
      ∧ (generateInterviewResponse env p m).response.model = jsOrO m "unknown")
    ∧
    (env.rateCheck.allowed = true → (env.cacheable = true → env.cached = none) →
      p ≠ "groq" → p ≠ "gemini" →
      (generateInterviewResponse env p m).response.answer ≠ ""
      ∧ (generateInterviewResponse env p m).response.error = some ("Unknown provider: " ++ p)
      ∧ (generateInterviewResponse env p m).response.provider = p
      ∧ (generateInterviewResponse env p m).response.model = jsOrO m "unknown")
    ∧
    (env.rateCheck.allowed = true → (env.cacheable = true → env.cached = none) →
      (∀ i, ∃ e, env.groqCall i = Except.error e) →
      (generateInterviewResponse env "groq" m).response.answer ≠ ""
      ∧ (generateInterviewResponse env "groq" m).response.error.isSome = true
      ∧ (generateInterviewResponse env "groq" m).response.provider = "groq"
      ∧ (generateInterviewResponse env "groq" m).response.model = jsOrO m "unknown")
    ∧
    (env.rateCheck.allowed = true → (env.cacheable = true → env.cached = none) →
      ∀ text : String, env.geminiEnv 0 = ⟨true, GeminiBackend.replies text none⟩ →
      (generateInterviewResponse env "gemini" m).response.answer ≠ "") := by
  refine ⟨?_, ?_, ?_, ?_⟩
  · intro h
    rw [pipeline_rate_limited env p m h]
    exact ⟨fallbackResponse_answer_ne_empty _ _ _, rfl, rfl, rfl⟩
  · intro hallow hmiss hg hgm
    have hfn : ∀ i, pipelineFn env p m i = Except.error ("Unknown provider: " ++ p) :=
      fun i => pipelineFn_unknown env p m i hg hgm
    have hres := retry_const_error_result (pipelineFn env p m) _ hfn
      RETRY_CONFIG.maxRetries RETRY_CONFIG.initialDelay 0
    rw [pipeline_miss_trace env p m hallow hmiss _ rfl, hres]
    exact ⟨fallbackResponse_answer_ne_empty _ _ _, rfl, rfl, rfl⟩
  · intro hallow hmiss hq
    have hfn : ∀ i, ∃ e, pipelineFn env "groq" m i = Except.error e := by
      intro i
      obtain ⟨e, he⟩ := hq i
      exact ⟨e, pipelineFn_groq_error env m i e he⟩
    obtain ⟨e, hres⟩ := retry_error_result (pipelineFn env "groq" m) hfn
      RETRY_CONFIG.maxRetries RETRY_CONFIG.initialDelay 0
    rw [pipeline_miss_trace env "groq" m hallow hmiss _ rfl, hres]
    exact ⟨fallbackResponse_answer_ne_empty _ _ _, rfl, rfl, rfl⟩
  · intro hallow hmiss text hge
    have hok : pipelineFn env "gemini" m 0 =
        Except.ok (generateGeminiResponse ⟨true, GeminiBackend.replies text none⟩
          (jsOrO m (jsOrO env.geminiModelEnv "gemini-2.0-flash-exp"))) := by
      rw [pipelineFn_gemini env m 0, hge]
    have ht := retry_ok (pipelineFn env "gemini" m)
      RETRY_CONFIG.maxRetries RETRY_CONFIG.initialDelay 0 _ hok
    rw [pipeline_miss_trace env "gemini" m hallow hmiss _ ht]
    show (generateGeminiResponse ⟨true, GeminiBackend.replies text none⟩ _).answer ≠ ""
    rw [gemini_parse_fallback_eq]
    exact jsOrS_ne_empty _ _ (by decide)

/-- Witness for C1: the four failure scenarios instantiated at concrete
environments all yield a non-empty `answer`. -/
theorem claim_C1_witness :
    (generateInterviewResponse envRateLimited "groq" none).response.answer ≠ ""
    ∧ (generateInterviewResponse envNoCache "openai" none).response.answer ≠ ""
    ∧ (generateInterviewResponse envNoCache "groq" none).response.answer ≠ ""
    ∧ (generateInterviewResponse envMalformed "gemini" none).response.answer ≠ "" := by
  refine ⟨((claim_C1_never_throws envRateLimited "groq" none).1 rfl).1,
          ((claim_C1_never_throws envNoCache "openai" none).2.1 rfl (fun h => rfl)
            (by decide) (by decide)).1,
          ((claim_C1_never_throws envNoCache "groq" none).2.2.1 rfl (fun h => rfl)
            (fun i => ⟨"timeout", rfl⟩)).1,
          (claim_C1_never_throws envMalformed "gemini" none).2.2.2 rfl (fun h => rfl)
            "oops not json" rfl⟩

/-- Claim C2: a provider call that throws a transient error on every
invocation is made exactly 4 times in total (1 initial attempt + 3 retries)
before the error propagates to the pipeline's error response; a call that
throws a non-retryable error is made exactly once. -/
theorem claim_C2_retry_termination :
    (∀ fn : Nat → Except String CanonicalResponse,
      (∀ i, ∃ e, fn i = Except.error e ∧ isRetryableMsg e = true) →
      (retryWithBackoff fn RETRY_CONFIG.maxRetries RETRY_CONFIG.initialDelay 0).calls = 4 ∧
      ∃ e, (retryWithBackoff fn RETRY_CONFIG.maxRetries RETRY_CONFIG.initialDelay 0).result = Except.error e)
    ∧
    (∀ (fn : Nat → Except String CanonicalResponse) (e : String),
      fn 0 = Except.error e → isRetryableMsg e = false →
      retryWithBackoff fn RETRY_CONFIG.maxRetries RETRY_CONFIG.initialDelay 0 = ⟨Except.error e, 1, []⟩)
    ∧
    (∀ (env : PipelineEnv) (m : Option String) (e : String),
      env.rateCheck.allowed = true → (env.cacheable = true → env.cached = none) →
      (∀ i, env.groqCall i = Except.error e) → isRetryableMsg e = true →
      (generateInterviewResponse env "groq" m).fnCalls = 4 ∧
      (generateInterviewResponse env "groq" m).response = fallbackResponse e "groq" m) := by
  refine ⟨?_, ?_, ?_⟩
  · intro fn hf
    obtain ⟨hc, hd, hres⟩ := retry_transient fn hf RETRY_CONFIG.maxRetries RETRY_CONFIG.initialDelay 0
    exact ⟨hc, hres⟩
  · intro fn e h0 hr
    exact retry_err_final fn RETRY_CONFIG.maxRetries RETRY_CONFIG.initialDelay 0 e h0 hr
  · intro env m e hallow hmiss hq hr
    have hfn : ∀ i, pipelineFn env "groq" m i = Except.error e :=
      fun i => pipelineFn_groq_error env m i e (hq i)
    have ht := retry_const_transient (pipelineFn env "groq" m) e hfn hr
      RETRY_CONFIG.maxRetries RETRY_CONFIG.initialDelay 0
    rw [pipeline_miss_trace env "groq" m hallow hmiss _ ht]
    exact ⟨rfl, rfl⟩

/-- Witness for C2: an always-timeout groq backend is attempted 4 times and
the pipeline returns the fallback; a "bad request" error settles after one
attempt. -/
theorem claim_C2_witness :
    (retryWithBackoff (fun _ => (Except.error "timeout" : Except String CanonicalResponse))
      RETRY_CONFIG.maxRetries RETRY_CONFIG.initialDelay 0).calls = 4
    ∧ retryWithBackoff (fun _ => (Except.error "bad request" : Except String CanonicalResponse))
        RETRY_CONFIG.maxRetries RETRY_CONFIG.initialDelay 0 = ⟨Except.error "bad request", 1, []⟩
    ∧ (generateInterviewResponse envNoCache "groq" none).fnCalls = 4
    ∧ (generateInterviewResponse envNoCache "groq" none).response =
        fallbackResponse "timeout" "groq" none := by
  refine ⟨(claim_C2_retry_termination.1 _ (fun i => ⟨"timeout", rfl, by decide⟩)).1,
          claim_C2_retry_termination.2.1 _ "bad request" rfl (by decide),
          ?_, ?_⟩
  · exact (claim_C2_retry_termination.2.2 envNoCache none "timeout" rfl (fun h => rfl)
      (fun i => rfl) (by decide)).1
  · exact (claim_C2_retry_termination.2.2 envNoCache none "timeout" rfl (fun h => rfl)
      (fun i => rfl) (by decide)).2

/-- Claim C3: a failed attempt is retried (the wrapped function is invoked
more than once) iff retries remain and the error message matches a
transient class — substring "timeout", "ECONNRESET", "ETIMEDOUT", "429",
"503" or "500"; any other failure propagates immediately after the single
attempt, as does any failure when no retries remain. -/
theorem claim_C3_transient_iff (fn : Nat → Except String CanonicalResponse) (e : String)
    (r d a : Nat) (h : fn a = Except.error e) :
    (1 < (retryWithBackoff fn (r + 1) d a).calls ↔ isRetryableMsg e = true)
    ∧ (isRetryableMsg e = false → retryWithBackoff fn (r + 1) d a = ⟨Except.error e, 1, []⟩)
    ∧ retryWithBackoff fn 0 d a = ⟨Except.error e, 1, []⟩
    ∧ isRetryableMsg e = (strIncludes e "timeout" || strIncludes e "ECONNRESET" ||
        strIncludes e "ETIMEDOUT" || strIncludes e "429" || strIncludes e "503" ||
        strIncludes e "500") := by
  refine ⟨⟨?_, ?_⟩, ?_, retry_zero_err fn d a e h, rfl⟩
  · intro hlt
    by_contra hr
    rw [retry_err_final fn (r + 1) d a e h (by simpa using hr)] at hlt
    simp at hlt
  · intro hr
    rw [retry_step fn r d a e h hr]
    exact Nat.lt_succ_of_le (retry_calls_pos fn r _ (a + 1))
  · intro hr
    exact retry_err_final fn (r + 1) d a e h hr

/-- Witness for C3: instantiated at a connection-reset error message. -/
theorem claim_C3_witness :
    (1 < (retryWithBackoff (fun _ => (Except.error "socket ECONNRESET" : Except String CanonicalResponse)) (0 + 1) 1000 0).calls
      ↔ isRetryableMsg "socket ECONNRESET" = true)
    ∧ (isRetryableMsg "socket ECONNRESET" = false →
        retryWithBackoff (fun _ => (Except.error "socket ECONNRESET" : Except String CanonicalResponse)) (0 + 1) 1000 0 =
          ⟨Except.error "socket ECONNRESET", 1, []⟩)
    ∧ retryWithBackoff (fun _ => (Except.error "socket ECONNRESET" : Except String CanonicalResponse)) 0 1000 0 =
        ⟨Except.error "socket ECONNRESET", 1, []⟩
    ∧ isRetryableMsg "socket ECONNRESET" =
        (strIncludes "socket ECONNRESET" "timeout" || strIncludes "socket ECONNRESET" "ECONNRESET" ||
         strIncludes "socket ECONNRESET" "ETIMEDOUT" || strIncludes "socket ECONNRESET" "429" ||
         strIncludes "socket ECONNRESET" "503" || strIncludes "socket ECONNRESET" "500") :=
  claim_C3_transient_iff (fun _ => Except.error "socket ECONNRESET") "socket ECONNRESET" 0 1000 0 rfl

/-- Counterexample to C4 as stated: with the configured 3 retries, the
delays actually slept on an always-transient failure are exactly
1000 ms, 2000 ms, 4000 ms — not the claimed four-delay schedule ending in
8000 ms; a delay of 8000 ms is never slept. -/
theorem claim_C4_counterexample :
    (retryWithBackoff (fun _ => (Except.error "timeout" : Except String CanonicalResponse))
      RETRY_CONFIG.maxRetries RETRY_CONFIG.initialDelay 0).delays = [1000, 2000, 4000]
    ∧ (retryWithBackoff (fun _ => (Except.error "timeout" : Except String CanonicalResponse))
        RETRY_CONFIG.maxRetries RETRY_CONFIG.initialDelay 0).delays ≠ [1000, 2000, 4000, 8000]
    ∧ 8000 ∉ (retryWithBackoff (fun _ => (Except.error "timeout" : Except String CanonicalResponse))
        RETRY_CONFIG.maxRetries RETRY_CONFIG.initialDelay 0).delays := by
  exact ⟨by decide, by decide, by decide⟩

/-- Claim C4 (amended): the delays slept between successive attempts are
always a prefix of the doubling schedule 1000 ms, 2000 ms, 4000 ms — each
double the previous, with the next delay computed as the double capped at
10000 ms — and a run whose every attempt fails transiently sleeps exactly
those three delays (the configured 3 retries allow at most 3 sleeps, so the
8-second value is computed as the would-be next delay but never slept). -/
theorem claim_C4_amended (fn : Nat → Except String CanonicalResponse) :
    (retryWithBackoff fn RETRY_CONFIG.maxRetries RETRY_CONFIG.initialDelay 0).delays <+: [1000, 2000, 4000]
    ∧ ((∀ i, ∃ e, fn i = Except.error e ∧ isRetryableMsg e = true) →
        (retryWithBackoff fn RETRY_CONFIG.maxRetries RETRY_CONFIG.initialDelay 0).delays = [1000, 2000, 4000])
    ∧ delaySchedule RETRY_CONFIG.maxRetries RETRY_CONFIG.initialDelay = [1000, 2000, 4000] := by
  have hs : delaySchedule RETRY_CONFIG.maxRetries RETRY_CONFIG.initialDelay = [1000, 2000, 4000] := by
    decide
  refine ⟨?_, ?_, hs⟩
  · have h := retry_delays_within_sched fn RETRY_CONFIG.maxRetries RETRY_CONFIG.initialDelay 0
    rwa [hs] at h
  · intro hf
    have h := (retry_transient fn hf RETRY_CONFIG.maxRetries RETRY_CONFIG.initialDelay 0).2.1
    rwa [hs] at h

/-- Witness for the amended C4: an always-timeout call sleeps exactly
1000 ms, 2000 ms, 4000 ms. -/
theorem claim_C4_witness :
    (retryWithBackoff (fun _ => (Except.error "timeout" : Except String CanonicalResponse))
      RETRY_CONFIG.maxRetries RETRY_CONFIG.initialDelay 0).delays = [1000, 2000, 4000] :=
  (claim_C4_amended (fun _ => Except.error "timeout")).2.1 (fun i => ⟨"timeout", rfl, by decide⟩)

/-- Claim C5: when the rate-limit check rejects, the pipeline returns an
error response whose `error` string embeds the rejection reason and the
retry-after seconds, and no provider adapter and no cache operation
(lookup or write) is invoked in that call. -/
theorem claim_C5_rate_limit_short_circuit (env : PipelineEnv) (p : String) (m : Option String)
    (h : env.rateCheck.allowed = false) :
    (generateInterviewResponse env p m).response.error =
      some (env.rateCheck.reason ++ ". Please wait " ++ toString env.rateCheck.retryAfter ++
        " seconds and try again.")
    ∧ (generateInterviewResponse env p m).response.answer ≠ ""
    ∧ (generateInterviewResponse env p m).adapterCalls = 0
    ∧ (generateInterviewResponse env p m).fnCalls = 0
    ∧ (generateInterviewResponse env p m).cacheLookedUp = false
    ∧ (generateInterviewResponse env p m).cacheWrite = none := by
  rw [pipeline_rate_limited env p m h]
  exact ⟨rfl, fallbackResponse_answer_ne_empty _ _ _, rfl, rfl, rfl, rfl⟩

/-- Witness for C5: rejection with reason "Rate limit exceeded" and 42
retry-after seconds produces exactly that error string, with no adapter and
no cache activity. -/
theorem claim_C5_witness :
    (generateInterviewResponse envRateLimited "groq" none).response.error =
      some "Rate limit exceeded. Please wait 42 seconds and try again."
    ∧ (generateInterviewResponse envRateLimited "groq" none).adapterCalls = 0
    ∧ (generateInterviewResponse envRateLimited "groq" none).cacheLookedUp = false
    ∧ (generateInterviewResponse envRateLimited "groq" none).cacheWrite = none := by
  have h := claim_C5_rate_limit_short_circuit envRateLimited "groq" none rfl
  exact ⟨h.1, h.2.2.1, h.2.2.2.2.1, h.2.2.2.2.2⟩

/-- Claim C6: on a cacheable question whose lookup hits, the pipeline
returns the cached response unchanged, with no provider adapter call and no
cache write; and the rate-limit check precedes the cache lookup — a
rate-limited call never consults the cache. -/
theorem claim_C6_cache_hit (env : PipelineEnv) (p : String) (m : Option String)
    (c : CanonicalResponse)
    (hallow : env.rateCheck.allowed = true) (hc : env.cacheable = true)
    (hhit : env.cached = some c) :
    ((generateInterviewResponse env p m).response = c
      ∧ (generateInterviewResponse env p m).adapterCalls = 0
      ∧ (generateInterviewResponse env p m).fnCalls = 0
      ∧ (generateInterviewResponse env p m).cacheWrite = none)
    ∧ (∀ (env2 : PipelineEnv) (p2 : String) (m2 : Option String),
        env2.rateCheck.allowed = false →
        (generateInterviewResponse env2 p2 m2).cacheLookedUp = false) := by
  constructor
  · rw [pipeline_cache_hit env p m c hallow hc hhit]
    exact ⟨rfl, rfl, rfl, rfl⟩
  · intro env2 p2 m2 h2
    rw [pipeline_rate_limited env2 p2 m2 h2]

/-- Witness for C6: a concrete cache hit is returned unchanged, and a
rate-limited environment never reaches the lookup. -/
theorem claim_C6_witness :
    (generateInterviewResponse envCacheHit "groq" none).response = cachedResp
    ∧ (generateInterviewResponse envCacheHit "groq" none).adapterCalls = 0
    ∧ (generateInterviewResponse envCacheHit "groq" none).cacheWrite = none
    ∧ (generateInterviewResponse envRateLimited "groq" none).cacheLookedUp = false := by
  have h := claim_C6_cache_hit envCacheHit "groq" none cachedResp rfl rfl rfl
  exact ⟨h.1.1, h.1.2.1, h.1.2.2.2, h.2 envRateLimited "groq" none rfl⟩

/-- Claim C7: when the gemini backend replies but its text does not parse as
JSON after fence stripping, the adapter does not fail the call: the returned
`answer` is the first 500 characters of the raw text (or the fixed fallback
sentence when the text is empty), the structured arrays are empty, no
`error` field is set, and the answer is never empty. -/
theorem claim_C7_gemini_parse_degrade (text mstr : String) :
    (generateGeminiResponse ⟨true, GeminiBackend.replies text none⟩ mstr).answer =
      (if text = ""
        then "Based on my extensive experience in this field, I can provide detailed insights..."
        else jsSubstring text 500)
    ∧ (generateGeminiResponse ⟨true, GeminiBackend.replies text none⟩ mstr).experience_mentioned = []
    ∧ (generateGeminiResponse ⟨true, GeminiBackend.replies text none⟩ mstr).key_technologies = []
    ∧ (generateGeminiResponse ⟨true, GeminiBackend.replies text none⟩ mstr).follow_up_topics = []
    ∧ (generateGeminiResponse ⟨true, GeminiBackend.replies text none⟩ mstr).error = none
    ∧ (generateGeminiResponse ⟨true, GeminiBackend.replies text none⟩ mstr).answer ≠ "" := by
  rw [gemini_parse_fallback_eq]
  by_cases h : text = ""
  · subst h
    refine ⟨?_, rfl, rfl, rfl, rfl, ?_⟩
    · show jsOrS (jsOrS (jsSubstring "" 500)
          "Based on my extensive experience in this field, I can provide detailed insights...")
          "I have several years of hands-on experience with this..." =
        (if ("" : String) = ""
          then "Based on my extensive experience in this field, I can provide detailed insights..."
          else jsSubstring "" 500)
      decide
    · show jsOrS (jsOrS (jsSubstring "" 500)
          "Based on my extensive experience in this field, I can provide detailed insights...")
          "I have several years of hands-on experience with this..." ≠ ""
      decide
  · have h5 : jsSubstring text 500 ≠ "" := fun hh => h ((jsSubstring_empty_iff text).mp hh)
    refine ⟨?_, rfl, rfl, rfl, rfl, jsOrS_ne_empty _ _ (by decide)⟩
    rw [if_neg h]
    simp [jsOrS, h5]

/-- Counterexample to C8 as stated: the unknown provider "429" yields the
error message "Unknown provider: 429", which the substring-based transient
test matches, so the retried closure is attempted 4 times — not exactly
once — though still no adapter is invoked. -/
theorem claim_C8_counterexample :
    (generateInterviewResponse envNoCache "429" none).fnCalls = 4
    ∧ ¬ (generateInterviewResponse envNoCache "429" none).fnCalls = 1
    ∧ (generateInterviewResponse envNoCache "429" none).adapterCalls = 0
    ∧ (generateInterviewResponse envNoCache "429" none).response.error =
        some "Unknown provider: 429"
    ∧ (generateInterviewResponse envNoCache "429" none).delays = [1000, 2000, 4000] := by
  exact ⟨by decide, by decide, by decide, by decide, by decide⟩

/-- Claim C8 (amended): for every provider other than "groq" and "gemini"
(reached after rate-limit admission and a cache miss), no provider adapter
is invoked, the degraded-response shape is returned with the error string
describing the unknown provider and the `provider` field echoing the given
value; the retried closure runs exactly once with no backoff sleeps
provided the message "Unknown provider: <value>" does not itself match a
transient substring (otherwise the throw is retried as transient). -/
theorem claim_C8_amended (env : PipelineEnv) (p : String) (m : Option String)
    (hallow : env.rateCheck.allowed = true)
    (hmiss : env.cacheable = true → env.cached = none)
    (hg : p ≠ "groq") (hgm : p ≠ "gemini") :
    (generateInterviewResponse env p m).adapterCalls = 0
    ∧ (generateInterviewResponse env p m).response =
        fallbackResponse ("Unknown provider: " ++ p) p m
    ∧ (generateInterviewResponse env p m).response.error = some ("Unknown provider: " ++ p)
    ∧ (generateInterviewResponse env p m).response.provider = p
    ∧ (generateInterviewResponse env p m).response.answer ≠ ""
    ∧ (generateInterviewResponse env p m).cacheWrite = none
    ∧ (isRetryableMsg ("Unknown provider: " ++ p) = false →
        (generateInterviewResponse env p m).fnCalls = 1
        ∧ (generateInterviewResponse env p m).delays = []) := by
  have hfn : ∀ i, pipelineFn env p m i = Except.error ("Unknown provider: " ++ p) :=
    fun i => pipelineFn_unknown env p m i hg hgm
  cases hr : isRetryableMsg ("Unknown provider: " ++ p) with
  | true =>
    have ht := retry_const_transient (pipelineFn env p m) _ hfn hr
      RETRY_CONFIG.maxRetries RETRY_CONFIG.initialDelay 0
    rw [pipeline_miss_trace env p m hallow hmiss _ ht]
    refine ⟨by simp [hg, hgm], rfl, rfl, rfl, fallbackResponse_answer_ne_empty _ _ _, rfl, ?_⟩
    intro hcond
    exact absurd hcond (by decide)
  | false =>
    have ht := retry_err_final (pipelineFn env p m)
      RETRY_CONFIG.maxRetries RETRY_CONFIG.initialDelay 0 _ (hfn 0) hr
    rw [pipeline_miss_trace env p m hallow hmiss _ ht]
    exact ⟨by simp [hg, hgm], rfl, rfl, rfl, fallbackResponse_answer_ne_empty _ _ _, rfl,
      fun _ => ⟨rfl, rfl⟩⟩

/-- Witness for the amended C8: the unknown provider "openai" (whose name
matches no transient substring) is rejected after exactly one attempt with
no adapter call. -/
theorem claim_C8_witness :
    (generateInterviewResponse envNoCache "openai" none).adapterCalls = 0
    ∧ (generateInterviewResponse envNoCache "openai" none).fnCalls = 1
    ∧ (generateInterviewResponse envNoCache "openai" none).response.error =
        some "Unknown provider: openai"
    ∧ (generateInterviewResponse envNoCache "openai" none).response.provider = "openai" := by
  have h := claim_C8_amended envNoCache "openai" none rfl (fun h => rfl) (by decide) (by decide)
  exact ⟨h.1, (h.2.2.2.2.2.2 (by decide)).1, h.2.2.1, h.2.2.2.1⟩

/-- Claim C9: the gemini adapter never rejects — a backend exception is
caught inside the adapter and resolved into a response with `error` set to
the exception message, provider "gemini", score 0 and a fixed non-empty
answer; consequently the dispatch closure resolves on every attempt, and
for provider "gemini" the pipeline's retry wrapper observes success on the
first attempt: one invocation, no sleeps, one adapter call. -/
theorem claim_C9_gemini_total (env : PipelineEnv) (m : Option String) (msg mstr : String)
    (hallow : env.rateCheck.allowed = true)
    (hmiss : env.cacheable = true → env.cached = none) :
    (generateGeminiResponse ⟨true, GeminiBackend.throws msg⟩ mstr).error = some msg
    ∧ (generateGeminiResponse ⟨true, GeminiBackend.throws msg⟩ mstr).provider = "gemini"
    ∧ (generateGeminiResponse ⟨true, GeminiBackend.throws msg⟩ mstr).score = 0
    ∧ (generateGeminiResponse ⟨true, GeminiBackend.throws msg⟩ mstr).answer =
        "I have extensive experience in this area. Let me share a specific example from my previous role..."
    ∧ (generateGeminiResponse ⟨true, GeminiBackend.throws msg⟩ mstr).answer ≠ ""
    ∧ (∀ i, pipelineFn env "gemini" m i =
        Except.ok (generateGeminiResponse (env.geminiEnv i)
          (jsOrO m (jsOrO env.geminiModelEnv "gemini-2.0-flash-exp"))))
    ∧ (generateInterviewResponse env "gemini" m).fnCalls = 1
    ∧ (generateInterviewResponse env "gemini" m).delays = []
    ∧ (generateInterviewResponse env "gemini" m).adapterCalls = 1 := by
  have ht := retry_ok (pipelineFn env "gemini" m)
    RETRY_CONFIG.maxRetries RETRY_CONFIG.initialDelay 0 _ (pipelineFn_gemini env m 0)
  rw [pipeline_miss_trace env "gemini" m hallow hmiss _ ht]
  refine ⟨rfl, rfl, rfl, rfl, ?_, fun i => pipelineFn_gemini env m i, rfl, rfl, rfl⟩
  show ("I have extensive experience in this area. Let me share a specific example from my previous role..." : String) ≠ ""
  decide

/-- Witness for C9: a gemini backend that throws "boom" still yields a
single attempt with no sleeps, and the adapter reports the message in
`error`. -/
theorem claim_C9_witness :
    (generateGeminiResponse ⟨true, GeminiBackend.throws "boom"⟩ "gemini-2.0-flash-exp").error =
      some "boom"
    ∧ (generateInterviewResponse envNoCache "gemini" none).fnCalls = 1
    ∧ (generateInterviewResponse envNoCache "gemini" none).delays = [] := by
  have h := claim_C9_gemini_total envNoCache none "boom" "gemini-2.0-flash-exp" rfl (fun h => rfl)
  exact ⟨h.1, h.2.2.2.2.2.2.1, h.2.2.2.2.2.2.2.1⟩

/-- Claim C10: for provider "gemini", a cacheable question, a cache miss and
a throwing backend, the pipeline treats the adapter's error-bearing fallback
as a success: it writes that very fallback (with `error` set and empty
structured arrays) to the cache and returns it. -/
theorem claim_C10_error_cached (env : PipelineEnv) (m : Option String) (msg : String)
    (hallow : env.rateCheck.allowed = true)
    (hc : env.cacheable = true)
    (hmiss : env.cached = none)
    (hge : env.geminiEnv 0 = ⟨true, GeminiBackend.throws msg⟩) :
    (generateInterviewResponse env "gemini" m).response =
      geminiCatchFallback msg (jsOrO m (jsOrO env.geminiModelEnv "gemini-2.0-flash-exp"))
    ∧ (generateInterviewResponse env "gemini" m).cacheWrite =
        some ((generateInterviewResponse env "gemini" m).response)
    ∧ (generateInterviewResponse env "gemini" m).response.error = some msg
    ∧ (generateInterviewResponse env "gemini" m).response.experience_mentioned = []
    ∧ (generateInterviewResponse env "gemini" m).response.key_technologies = []
    ∧ (generateInterviewResponse env "gemini" m).response.follow_up_topics = [] := by
  have hok : pipelineFn env "gemini" m 0 =
      Except.ok (geminiCatchFallback msg (jsOrO m (jsOrO env.geminiModelEnv "gemini-2.0-flash-exp"))) := by
    rw [pipelineFn_gemini env m 0, hge]
    rfl
  have ht := retry_ok (pipelineFn env "gemini" m)
    RETRY_CONFIG.maxRetries RETRY_CONFIG.initialDelay 0 _ hok
  rw [pipeline_miss_trace env "gemini" m hallow (fun _ => hmiss) _ ht]
  refine ⟨rfl, by simp [hc], rfl, rfl, rfl, rfl⟩

/-- Witness for C10: the "boom" failure fallback is written to the cache and
returned. -/
theorem claim_C10_witness :
    (generateInterviewResponse envCacheMiss "gemini" none).cacheWrite =
      some ((generateInterviewResponse envCacheMiss "gemini" none).response)
    ∧ (generateInterviewResponse envCacheMiss "gemini" none).response.error = some "boom"
    ∧ (generateInterviewResponse envCacheMiss "gemini" none).response.experience_mentioned = [] := by
  have h := claim_C10_error_cached envCacheMiss none "boom" rfl rfl rfl rfl
  exact ⟨h.2.1, h.2.2.1, h.2.2.2.1⟩

end InterviewBuddy
